import Mathlib

/-!
Verification of the header-bar menu and login-widget behaviour of the
proton-vpn-gtk-app repository.

The menu (`src/proton/vpn/app/gtk/widgets/headerbar/menu/menu.py`) is
embedded as a small state machine: each Python callback becomes a Lean
function from its inputs (the connection-active query result, the dialog
response, the asynchronous logout outcome) to the ordered list of
externally visible events it performs.  The only piece of mutable state
the callbacks touch is the enabled flag of the logout action, so the
menu state is a one-field structure and the event list is replayed over
it with a fold.

The login widget (`src/proton/vpn/app/gtk/widgets/login/login_widget.py`)
is embedded as a record holding the two stacked forms, the currently
visible child and the `active_form` field, with each signal handler a
function on that record returning the new record together with the
events emitted to the owner.
-/

namespace ProtonVPN

/-- The `Gtk.ResponseType` values a `DisconnectDialog` can produce, as the
menu code distinguishes them: `yes`, `no`, or anything else (the dialog
being closed, delete-event, etc.). -/
inductive Response where
  | yes
  | no
  | cancel
deriving DecidableEq, Repr

/-- Externally visible events performed by the menu callbacks, in program
order: toggling the enabled flag of the logout action, running a
confirmation dialog, invoking `controller.logout()`, invoking
`main_window.quit()`, showing an error dialog, and emitting the
`user-logged-out` signal. -/
inductive MenuEvent where
  | setLogoutEnabled (b : Bool)
  | showConfirmDialog (message : String)
  | invokeLogout
  | invokeQuit
  | showErrorDialog (message : String) (title : String)
  | emitUserLoggedOut
deriving DecidableEq, Repr

/-- `Menu.UNABLE_TO_LOGOUT_TITLE` in `menu.py`. -/
def UNABLE_TO_LOGOUT_TITLE : String := "Unable to Logout"

/-- `Menu.UNABLE_TO_LOGOUT_MESSAGE` in `menu.py`. -/
def UNABLE_TO_LOGOUT_MESSAGE : String := "Please ensure you have internet access."

/-- `Menu.DISCONNECT_ON_LOGOUT_MESSAGE` in `menu.py`. -/
def DISCONNECT_ON_LOGOUT_MESSAGE : String :=
  "Logging out of the application will disconnect the active VPN connection.\n\nDo you want to continue?"

/-- `Menu.DISCONNECT_ON_QUIT_MESSAGE` in `menu.py`. -/
def DISCONNECT_ON_QUIT_MESSAGE : String :=
  "Quitting the application will disconnect the active VPN connection.\n\nDo you want to continue?"

/-- The mutable state of the menu that the embedded callbacks read or
write: the enabled flag of the logout `Gio.SimpleAction`. -/
structure MenuState where
  logout_enabled : Bool
deriving DecidableEq, Repr

/-- Replay one event over the menu state.  Only `setLogoutEnabled`
changes the state; every other event is an outward call. -/
def applyEvent (s : MenuState) (e : MenuEvent) : MenuState :=
  match e with
  | MenuEvent.setLogoutEnabled b => { s with logout_enabled := b }
  | _ => s

/-- Replay a list of events over the menu state, in order. -/
def runEvents (s : MenuState) (es : List MenuEvent) : MenuState :=
  es.foldl applyEvent s

/-- `Menu._on_logout_clicked`: the logout action is disabled, then, when a
connection is active, the confirmation dialog runs and the enabled flag is
set to whether the response was `No`; `controller.logout()` is invoked
exactly when the click was confirmed (`Yes` when the dialog ran, always
otherwise).  The result is the ordered list of events the callback
performs. -/
def onLogoutClicked (is_connection_active : Bool) (response : Response) :
    List MenuEvent :=
  MenuEvent.setLogoutEnabled false ::
    (if is_connection_active then
      [MenuEvent.showConfirmDialog DISCONNECT_ON_LOGOUT_MESSAGE,
       MenuEvent.setLogoutEnabled (response = Response.no)]
     else []) ++
    (if (if is_connection_active then response = Response.yes else True) then
      [MenuEvent.invokeLogout]
     else [])

/-- `Menu._on_quit_clicked`: when a connection is active the confirmation
dialog runs and the quit proceeds only on a `Yes` response; with no
active connection `main_window.quit()` is invoked directly. -/
def onQuitClicked (is_connection_active : Bool) (response : Response) :
    List MenuEvent :=
  (if is_connection_active then
    [MenuEvent.showConfirmDialog DISCONNECT_ON_QUIT_MESSAGE]
   else []) ++
    (if (if is_connection_active then response = Response.yes else True) then
      [MenuEvent.invokeQuit]
     else [])

/-- How the future returned by `controller.logout()` resolves:
successfully, with a `ProtonAPINotReachable` exception, or with any other
exception (which `_on_logout_result` does not catch). -/
inductive LogoutOutcome where
  | success
  | apiNotReachable
  | otherError
deriving DecidableEq, Repr

/-- `Menu._on_logout_result`: on success the `user-logged-out` signal is
emitted; on `ProtonAPINotReachable` the logout action is re-enabled and
the fixed error dialog is shown; any other exception escapes the handler
untouched, producing no event. -/
def onLogoutResult (outcome : LogoutOutcome) : List MenuEvent :=
  match outcome with
  | LogoutOutcome.success => [MenuEvent.emitUserLoggedOut]
  | LogoutOutcome.apiNotReachable =>
      [MenuEvent.setLogoutEnabled true,
       MenuEvent.showErrorDialog UNABLE_TO_LOGOUT_MESSAGE UNABLE_TO_LOGOUT_TITLE]
  | LogoutOutcome.otherError => []

/-- Recognises a confirmation-dialog event, whatever its message. -/
def isConfirmDialog (e : MenuEvent) : Bool :=
  match e with
  | MenuEvent.showConfirmDialog _ => true
  | _ => false

/-- Recognises an error-dialog event, whatever its message and title. -/
def isErrorDialog (e : MenuEvent) : Bool :=
  match e with
  | MenuEvent.showErrorDialog _ _ => true
  | _ => false

/-- Identifies the two forms stacked inside the `LoginWidget`
(`Gtk.Stack`): the login form and the two-factor-authentication form. -/
inductive FormId where
  | loginForm
  | twoFactorAuthForm
deriving DecidableEq, Repr

/-- Modelled from the spec: the source of `LoginForm` is not part of the
excerpt; following the data model its credential input state is a
username, a password and a transient error message, all cleared on
reset. -/
structure LoginFormState where
  username : String
  password : String
  error_message : String
deriving DecidableEq, Repr

/-- Modelled from the spec: `LoginForm.reset` clears all input fields and
the error state of the login form. -/
def LoginFormState.reset (_f : LoginFormState) : LoginFormState :=
  { username := "", password := "", error_message := "" }

/-- Modelled from the spec: the source of `TwoFactorAuthForm` is not part
of the excerpt; its input state is the second-factor code being entered
together with a transient error message, both cleared on reset. -/
structure TwoFactorAuthFormState where
  code : String
  error_message : String
deriving DecidableEq, Repr

/-- Modelled from the spec: `TwoFactorAuthForm.reset` clears the input
field and the error state of the second-factor form. -/
def TwoFactorAuthFormState.reset (_f : TwoFactorAuthFormState) :
    TwoFactorAuthFormState :=
  { code := "", error_message := "" }

/-- The state of the `LoginWidget`: the `active_form` attribute, the
visible child of the `Gtk.Stack`, and the two stacked forms. -/
structure LoginWidgetState where
  active_form : Option FormId
  visible_child : FormId
  login_form : LoginFormState
  two_factor_auth_form : TwoFactorAuthFormState
deriving DecidableEq, Repr

/-- The `LoginWidget` right after `__init__`: `active_form` is `None` and
the visible child of the stack is the first child added, the login form,
which the class docstring states is shown by default; both freshly
constructed forms hold empty fields. -/
def LoginWidgetState.init : LoginWidgetState :=
  { active_form := none
    visible_child := FormId.loginForm
    login_form := { username := "", password := "", error_message := "" }
    two_factor_auth_form := { code := "", error_message := "" } }

/-- `LoginWidget.display_form`: records the form as active, makes it the
visible child of the stack, and calls `reset()` on the form being
shown. -/
def display_form (s : LoginWidgetState) (form : FormId) : LoginWidgetState :=
  let s' := { s with active_form := some form, visible_child := form }
  match form with
  | FormId.loginForm => { s' with login_form := s'.login_form.reset }
  | FormId.twoFactorAuthForm =>
      { s' with two_factor_auth_form := s'.two_factor_auth_form.reset }

/-- `LoginWidget.reset`: resets the widget to its initial state by
displaying the login form. -/
def LoginWidgetState.reset (s : LoginWidgetState) : LoginWidgetState :=
  display_form s FormId.loginForm

/-- Events the `LoginWidget` emits to its owner. -/
inductive LoginEvent where
  | userLoggedIn
deriving DecidableEq, Repr

/-- `LoginWidget._on_user_authenticated`: when no second factor is
required the `user-logged-in` signal is emitted; otherwise the
two-factor form is displayed. -/
def onUserAuthenticated (s : LoginWidgetState)
    (two_factor_auth_required : Bool) : LoginWidgetState × List LoginEvent :=
  if !two_factor_auth_required then
    (s, [LoginEvent.userLoggedIn])
  else
    (display_form s FormId.twoFactorAuthForm, [])

/-- `LoginWidget._on_two_factor_auth_successful`: emits the
`user-logged-in` signal. -/
def onTwoFactorAuthSuccessful (s : LoginWidgetState) :
    LoginWidgetState × List LoginEvent :=
  (s, [LoginEvent.userLoggedIn])

/-- `LoginWidget._on_session_expired_during_2fa`: displays the login form
again. -/
def onSessionExpiredDuring2fa (s : LoginWidgetState) :
    LoginWidgetState × List LoginEvent :=
  (display_form s FormId.loginForm, [])

/-- All input fields of the whole widget, across both stacked forms, are
clear. -/
def allInputFieldsCleared (s : LoginWidgetState) : Prop :=
  s.login_form.username = "" ∧ s.login_form.password = "" ∧
    s.two_factor_auth_form.code = ""

instance (s : LoginWidgetState) : Decidable (allInputFieldsCleared s) := by
  unfold allInputFieldsCleared; infer_instance

/-- The form currently shown by the stack is in its reset state. -/
def shownFormIsReset (s : LoginWidgetState) : Prop :=
  match s.visible_child with
  | FormId.loginForm => s.login_form = s.login_form.reset
  | FormId.twoFactorAuthForm =>
      s.two_factor_auth_form = s.two_factor_auth_form.reset

/-- A concrete widget state in which the user typed credentials in the
login form and a code in the two-factor form. -/
def populatedWidgetState : LoginWidgetState :=
  { active_form := some FormId.twoFactorAuthForm
    visible_child := FormId.twoFactorAuthForm
    login_form := { username := "u", password := "p", error_message := "" }
    two_factor_auth_form := { code := "123456", error_message := "" } }

/-- Claim C1: a logout click with an active connection whose confirmation
dialog returns the No response re-enables the logout action and never
invokes `controller.logout()`. -/
theorem logout_declined_reenables_and_never_logs_out (s : MenuState) :
    (runEvents s (onLogoutClicked true Response.no)).logout_enabled = true ∧
      MenuEvent.invokeLogout ∉ onLogoutClicked true Response.no := by
  obtain ⟨b⟩ := s
  cases b <;> decide

/-- Claim C2: a logout whose asynchronous result resolves with
`ProtonAPINotReachable` re-enables the logout action, shows exactly one
error dialog, with the fixed message and title, and emits no
`user-logged-out` signal. -/
theorem logout_api_unreachable_handling (s : MenuState) :
    (runEvents s (onLogoutResult LogoutOutcome.apiNotReachable)).logout_enabled
        = true ∧
      (onLogoutResult LogoutOutcome.apiNotReachable).filter isErrorDialog =
        [MenuEvent.showErrorDialog UNABLE_TO_LOGOUT_MESSAGE
          UNABLE_TO_LOGOUT_TITLE] ∧
      MenuEvent.emitUserLoggedOut ∉ onLogoutResult LogoutOutcome.apiNotReachable
    := by
  obtain ⟨b⟩ := s
  cases b <;> decide

/-- Claim C6: a logout click with no active connection runs no
confirmation dialog and invokes `controller.logout()` directly, exactly
once, whatever response a dialog would have produced. -/
theorem logout_without_connection_is_direct (r : Response) :
    (onLogoutClicked false r).countP isConfirmDialog = 0 ∧
      (onLogoutClicked false r).count MenuEvent.invokeLogout = 1 := by
  cases r <;> decide

/-- Claim C7: a quit click with an active connection invokes
`main_window.quit()` exactly once on a Yes response, while a No response
produces nothing beyond the confirmation dialog itself and leaves the
menu state unchanged. -/
theorem quit_confirmation_behaviour (s : MenuState) :
    (onQuitClicked true Response.yes).count MenuEvent.invokeQuit = 1 ∧
      onQuitClicked true Response.no =
        [MenuEvent.showConfirmDialog DISCONNECT_ON_QUIT_MESSAGE] ∧
      runEvents s (onQuitClicked true Response.no) = s := by
  obtain ⟨b⟩ := s
  cases b <;> decide

/-- Claim C8: on every logout click the very first event disables the
logout action, and at any point where the confirmation dialog is run or
`controller.logout()` is invoked the logout action is already disabled,
whatever state it started in. -/
theorem logout_disabled_before_dialog_and_request (c : Bool) (r : Response)
    (s : MenuState) :
    (onLogoutClicked c r).head? = some (MenuEvent.setLogoutEnabled false) ∧
      ∀ i : Fin (onLogoutClicked c r).length,
        (isConfirmDialog ((onLogoutClicked c r).get i) = true ∨
            (onLogoutClicked c r).get i = MenuEvent.invokeLogout) →
          (runEvents s ((onLogoutClicked c r).take i.val)).logout_enabled
            = false := by
  obtain ⟨b⟩ := s
  cases b <;> cases c <;> cases r <;> decide

/-- Witness for claim C8 at the concrete input of an enabled menu, an
active connection and a Yes response: right before the confirmation
dialog at position 1 of the trace the logout action is disabled. -/
theorem logout_disabled_before_dialog_and_request_witness :
    (runEvents { logout_enabled := true }
        ((onLogoutClicked true Response.yes).take 1)).logout_enabled = false :=
  (logout_disabled_before_dialog_and_request true Response.yes
      { logout_enabled := true }).2 ⟨1, by decide⟩ (Or.inl (by decide))

/-- Claim C9: a logout click with an active connection whose confirmation
dialog returns neither Yes nor No leaves the logout action disabled and
never invokes `controller.logout()`. -/
theorem logout_cancelled_stays_disabled (s : MenuState) :
    (runEvents s (onLogoutClicked true Response.cancel)).logout_enabled
        = false ∧
      MenuEvent.invokeLogout ∉ onLogoutClicked true Response.cancel := by
  obtain ⟨b⟩ := s
  cases b <;> decide

/-- Claim C10: a logout whose asynchronous result resolves successfully
emits exactly one `user-logged-out` signal, shows no error dialog, and
leaves the menu state, in particular the logout enabled flag,
unchanged. -/
theorem logout_success_emits_once (s : MenuState) :
    (onLogoutResult LogoutOutcome.success).count MenuEvent.emitUserLoggedOut
        = 1 ∧
      (onLogoutResult LogoutOutcome.success).countP isErrorDialog = 0 ∧
      runEvents s (onLogoutResult LogoutOutcome.success) = s := by
  obtain ⟨b⟩ := s
  cases b <;> decide

/-- Counterexample to claim C3 as stated: resetting the widget from a
state where the two-factor form holds the code 123456 forces the login
form visible but does not clear all input fields of the widget, because
the hidden two-factor field keeps its value. -/
theorem reset_does_not_clear_all_widget_fields :
    (LoginWidgetState.reset populatedWidgetState).visible_child
        = FormId.loginForm ∧
      ¬ allInputFieldsCleared (LoginWidgetState.reset populatedWidgetState)
    := by
  decide

/-- Claim C3 as amended: `reset()` forces the login form visible, records
it active and clears all of its input fields, and every `display_form`
makes the requested form visible and resets it, so the shown form never
carries stale input or error state. -/
theorem reset_shows_cleared_login_form (s : LoginWidgetState) (f : FormId) :
    (LoginWidgetState.reset s).visible_child = FormId.loginForm ∧
      (LoginWidgetState.reset s).active_form = some FormId.loginForm ∧
      (LoginWidgetState.reset s).login_form =
        { username := "", password := "", error_message := "" } ∧
      (display_form s f).visible_child = f ∧
      shownFormIsReset (display_form s f) := by
  cases f <;>
    simp [LoginWidgetState.reset, display_form, shownFormIsReset,
      LoginFormState.reset, TwoFactorAuthFormState.reset]

/-- Claim C4: the widget starts on the login form; an authenticated event
with the second factor required displays the two-factor form and resets
it; a session-expired event during the second factor displays the login
form again with its fields cleared. -/
theorem login_flow_transition_function (s : LoginWidgetState) :
    LoginWidgetState.init.visible_child = FormId.loginForm ∧
      (onUserAuthenticated s true).1.visible_child
          = FormId.twoFactorAuthForm ∧
      (onUserAuthenticated s true).1.two_factor_auth_form =
        { code := "", error_message := "" } ∧
      (onSessionExpiredDuring2fa s).1.visible_child = FormId.loginForm ∧
      (onSessionExpiredDuring2fa s).1.login_form =
        { username := "", password := "", error_message := "" } := by
  simp [LoginWidgetState.init, onUserAuthenticated, onSessionExpiredDuring2fa,
    display_form, LoginFormState.reset, TwoFactorAuthFormState.reset]

/-- Claim C5: an authenticated event with no second factor required, and
a successful two-factor event, each emit exactly one `user-logged-in`
signal and leave the widget state, in particular the visible
presentation, unchanged. -/
theorem login_complete_single_event (s : LoginWidgetState) :
    onUserAuthenticated s false = (s, [LoginEvent.userLoggedIn]) ∧
      onTwoFactorAuthSuccessful s = (s, [LoginEvent.userLoggedIn]) := by
  simp [onUserAuthenticated, onTwoFactorAuthSuccessful]

end ProtonVPN
